import Mathlib

/-!
Verification of the codeium-chrome session/connection bridge
(`src/common.ts` and the background service worker).

The TypeScript source is shallowly embedded: each class's mutable fields
become a Lean structure, each method (or the relevant synchronous segment
of an async method, delimited by its `await` points) becomes a pure
function from the old state (plus the environment's inputs) to the new
state and the produced effects.  Event-driven parts (port connect and
disconnect listeners, message listeners, the poller's timer tick) become
step functions over explicit event values, and whole executions are
folds of those step functions over event traces.
-/

namespace Codeium

/-! ## Credential headers (`LanguageServerServiceWorkerClient.getHeaders`)

```ts
getHeaders(apiKey: string | undefined): Record<string, string> {
  if (apiKey === undefined) { return {}; }
  const Authorization = `Basic ${apiKey}-${this.sessionId}`;
  return { Authorization };
}
```
`this.sessionId` is the session identity the endpoint was constructed
with; the header map is modelled as an association list. -/

def getHeaders (sessionId : String) (apiKey : Option String) :
    List (String × String) :=
  match apiKey with
  | none => []
  | some k => [("Authorization", "Basic " ++ k ++ "-" ++ sessionId)]

/-- An upstream unary call as the endpoint issues it: the opaque request
payload together with the header map attached to it.  Models the argument
pair of `client.getCompletions(request, {signal, headers})` and
`client.acceptCompletion(request, {headers})`. -/
structure UpstreamCall where
  requestPayload : String
  headers : List (String × String)
  deriving DecidableEq, Repr

/-- The call issued by `getCompletions`: the request is forwarded and the
headers come from `getHeaders(request.metadata?.apiKey)`. -/
def buildGetCompletionsCall (sessionId : String) (apiKey : Option String)
    (request : String) : UpstreamCall :=
  { requestPayload := request, headers := getHeaders sessionId apiKey }

/-- The call issued by `acceptedLastCompletion`: the request is forwarded
and the headers come from `getHeaders(acceptCompletionRequest.metadata?.apiKey)`. -/
def buildAcceptCompletionCall (sessionId : String) (apiKey : Option String)
    (request : String) : UpstreamCall :=
  { requestPayload := request, headers := getHeaders sessionId apiKey }

/-- Left cancellation for string concatenation, via the underlying
character lists. -/
theorem string_append_left_cancel {a b c : String}
    (h : a ++ b = a ++ c) : b = c := by
  apply String.ext
  have hd : (a ++ b).data = (a ++ c).data := by rw [h]
  rw [String.data_append, String.data_append] at hd
  exact List.append_cancel_left hd

/-- C9: for a defined credential `k` and session identity `s`, the
authorization header is exactly the string "Basic " ++ k ++ "-" ++ s,
and two distinct sessions sharing one credential produce distinct
header maps. -/
theorem getHeaders_deterministic_sessions_disambiguated
    (k s₁ s₂ : String) (h : s₁ ≠ s₂) :
    getHeaders s₁ (some k) =
      [("Authorization", "Basic " ++ k ++ "-" ++ s₁)] ∧
    getHeaders s₂ (some k) =
      [("Authorization", "Basic " ++ k ++ "-" ++ s₂)] ∧
    getHeaders s₁ (some k) ≠ getHeaders s₂ (some k) := by
  refine ⟨rfl, rfl, ?_⟩
  intro hEq
  apply h
  simp only [getHeaders, List.cons.injEq, Prod.mk.injEq, and_true] at hEq
  exact string_append_left_cancel hEq.2

/-- C9 witness: instantiated at credential "k" and sessions "s1" ≠ "s2". -/
theorem getHeaders_deterministic_sessions_disambiguated_witness :
    getHeaders "s1" (some "k") =
      [("Authorization", "Basic " ++ "k" ++ "-" ++ "s1")] ∧
    getHeaders "s2" (some "k") =
      [("Authorization", "Basic " ++ "k" ++ "-" ++ "s2")] ∧
    getHeaders "s1" (some "k") ≠ getHeaders "s2" (some "k") :=
  getHeaders_deterministic_sessions_disambiguated "k" "s1" "s2" (by decide)

/-- C10: with an undefined credential, header construction returns the
empty header map rather than failing, and both the completion call and
the acceptance call are still issued, carrying no authorization header. -/
theorem getHeaders_none_empty_calls_still_issued (s r : String) :
    getHeaders s none = [] ∧
    buildGetCompletionsCall s none r = { requestPayload := r, headers := [] } ∧
    buildAcceptCompletionCall s none r = { requestPayload := r, headers := [] } :=
  ⟨rfl, rfl, rfl⟩

/-! ## Supersession of in-flight completion calls
(`LanguageServerServiceWorkerClient.getCompletions`, synchronous prefix)

```ts
this.abortController?.abort();
this.abortController = new AbortController();
const signal = this.abortController.signal;
```
These three lines run with no intervening `await`, so they are one atomic
step of the endpoint's single-threaded loop.  Abort controllers are
numbered in creation order; the endpoint state records how many exist and
which have been fired.  `abortController?` holds the most recently
created controller, i.e. number `numControllers - 1` when any exists. -/

structure EndpointAbortState where
  numControllers : Nat
  firedList : List Nat
  deriving DecidableEq, Repr

/-- The synchronous prefix of one `getCompletions` call on the endpoint:
fire the current controller if one exists, then install a fresh one.
Returns the new state and the number of the fresh controller (whose
`signal` the upstream call is issued with). -/
def getCompletionsStart (s : EndpointAbortState) : EndpointAbortState × Nat :=
  let fired :=
    match s.numControllers with
    | 0 => s.firedList
    | n + 1 => n :: s.firedList
  ({ numControllers := s.numControllers + 1, firedList := fired },
   s.numControllers)

/-- A freshly constructed endpoint holds no abort controller
(`private abortController?: AbortController` is unset). -/
def initEndpointAbortState : EndpointAbortState :=
  { numControllers := 0, firedList := [] }

/-- The endpoint state after `n` successive `getCompletions` calls on one
session's endpoint. -/
def endpointAfter : Nat → EndpointAbortState
  | 0 => initEndpointAbortState
  | n + 1 => (getCompletionsStart (endpointAfter n)).1

theorem endpointAfter_numControllers (n : Nat) :
    (endpointAfter n).numControllers = n := by
  induction n with
  | zero => rfl
  | succ n ih =>
    simp only [endpointAfter, getCompletionsStart]
    exact congrArg (· + 1) ih

theorem endpointAfter_fired_of_lt (n : Nat) :
    ∀ i, i + 1 < n → i ∈ (endpointAfter n).firedList := by
  induction n with
  | zero => intro i h; omega
  | succ n ih =>
    intro i h
    simp only [endpointAfter, getCompletionsStart]
    rcases hn : (endpointAfter n).numControllers with _ | m
    · have := endpointAfter_numControllers n
      omega
    · have hm : m + 1 = n := by have := endpointAfter_numControllers n; omega
      simp only [List.mem_cons]
      by_cases hi : i = m
      · exact Or.inl hi
      · exact Or.inr (ih i (by omega))

/-- C1: after any number of `getCompletions` calls on one session's
endpoint, every abort controller other than the most recently created one
has been fired: each call aborts its predecessor's controller before
creating a fresh one, so at most one controller — the newest — remains
unfired. -/
theorem getCompletions_supersession_at_most_one_unfired
    (n i : Nat) (hi : i < (endpointAfter n).numControllers)
    (hunfired : i ∉ (endpointAfter n).firedList) :
    i + 1 = (endpointAfter n).numControllers := by
  rw [endpointAfter_numControllers] at hi ⊢
  by_contra hne
  exact hunfired (endpointAfter_fired_of_lt n i (by omega))

/-- C1 witness: after three calls, controller 1 (fired) is dominated by
the invariant; controller 2 is the unique unfired one. -/
theorem getCompletions_supersession_at_most_one_unfired_witness :
    2 < (endpointAfter 3).numControllers ∧
    2 ∉ (endpointAfter 3).firedList ∧
    2 + 1 = (endpointAfter 3).numControllers := by
  refine ⟨by decide, by decide, ?_⟩
  exact getCompletions_supersession_at_most_one_unfired 3 2
    (by decide) (by decide)

/-! ## Credential poller (`ApiKeyPoller`)

```ts
class ApiKeyPoller {
  apiKey: Promise<string | undefined> | string | undefined;
  constructor(extensionId: string) {
    this.apiKey = getApiKey(extensionId);
    setInterval(async () => {
      this.apiKey = await getApiKey(extensionId);
    }, 500);
  }
}
```
One timer tick awaits the external credential source and assigns the
result — whatever it is, including `undefined` — to the `apiKey` field.
The source (`getApiKey`) resolves with `user?.apiKey`, i.e. an
`Option String`. -/

structure ApiKeyPoller where
  apiKey : Option String
  deriving DecidableEq, Repr

/-- One refresh tick of the poller: `this.apiKey = await getApiKey(...)`,
where `fetched` is what the external credential source returned. -/
def refreshTick (_p : ApiKeyPoller) (fetched : Option String) : ApiKeyPoller :=
  { apiKey := fetched }

/-- C2 counterexample: a poller caching the credential "key1" whose
refresh tick gets nothing back from the source does NOT keep "key1" —
the cached value is overwritten with `none`. -/
theorem refreshTick_none_overwrites_cached_value :
    (refreshTick { apiKey := some "key1" } none).apiKey ≠ some "key1" := by
  decide

/-- C2 amended: a refresh tick replaces the cached credential with
exactly what the source returned — in particular a tick on which the
source returns nothing clears the cached value to `none` — and no error
is raised to readers: header construction over the post-tick value is
still defined, yielding the empty header map when the value is `none`. -/
theorem refreshTick_overwrites_no_error
    (p : ApiKeyPoller) (fetched : Option String) (s : String) :
    (refreshTick p fetched).apiKey = fetched ∧
    ((refreshTick p none).apiKey = none ∧
      getHeaders s (refreshTick p none).apiKey = []) :=
  ⟨rfl, rfl, rfl⟩

/-! ## Upstream failure handling
(`LanguageServerServiceWorkerClient.getCompletions`, catch block)

```ts
} catch (err) {
  if (signal.aborted) { return; }
  if (err instanceof ConnectError) {
    if (err.code != Code.Canceled) {
      console.log(err.message);
      await chrome.runtime.sendMessage(..., {type: 'error', message: err.message});
    }
  } else {
    console.log((err as Error).message);
    await chrome.runtime.sendMessage(..., {type: 'error', message: (err as Error).message});
  }
  return;
}
```
`Code.Canceled` is the connect-protocol code 1. -/

inductive UpstreamErr where
  | connect (code : Nat) (msg : String)
  | plain (msg : String)
  deriving DecidableEq, Repr

inductive StatusEffect where
  | silent
  | errorMessage (msg : String)
  deriving DecidableEq, Repr

def codeCanceled : Nat := 1

/-- The catch block of `getCompletions`: given whether this call's own
signal has been aborted and the error thrown by the upstream call,
produce the message sent to the process-status interface (if any) and
the value the caller is resolved with (always absent). -/
def handleGetCompletionsFailure (aborted : Bool) (err : UpstreamErr) :
    StatusEffect × Option String :=
  if aborted then (.silent, none)
  else
    match err with
    | .connect code msg =>
        if code ≠ codeCanceled then (.errorMessage msg, none)
        else (.silent, none)
    | .plain msg => (.errorMessage msg, none)

/-- C4 counterexample: a connect error carrying the Canceled code while
this call's own token has NOT fired is silenced — no status message is
sent — although the claim requires every non-aborted failure to surface
its message. -/
theorem handleGetCompletionsFailure_canceled_code_silent :
    (handleGetCompletionsFailure false (.connect codeCanceled "cancel")).1 =
      StatusEffect.silent ∧
    StatusEffect.silent ≠ StatusEffect.errorMessage "cancel" := by
  decide

/-- C4 amended: every upstream failure resolves the caller with an absent
result; a failure with the local token fired is silent; a failure with
the token unfired surfaces its message to the process-status interface
UNLESS it is a connect error carrying the Canceled code, which is also
treated as a silent no-op. -/
theorem handleGetCompletionsFailure_policy (aborted : Bool) (err : UpstreamErr) :
    (handleGetCompletionsFailure aborted err).2 = none ∧
    (aborted = true → (handleGetCompletionsFailure aborted err).1 = .silent) ∧
    (aborted = false →
      (handleGetCompletionsFailure aborted err).1 =
        match err with
        | .connect code msg =>
            if code = codeCanceled then .silent else .errorMessage msg
        | .plain msg => .errorMessage msg) := by
  refine ⟨?_, ?_, ?_⟩
  · cases aborted
    · cases err with
      | connect code msg =>
          by_cases hc : code = codeCanceled <;>
            simp [handleGetCompletionsFailure, hc]
      | plain msg => rfl
    · rfl
  · intro h; subst h; rfl
  · intro h; subst h
    cases err with
    | connect code msg =>
        by_cases hc : code = codeCanceled <;>
          simp [handleGetCompletionsFailure, hc]
    | plain msg => rfl

/-- C4 amended witness: a plain (non-connect) error with the token
unfired surfaces its message and resolves the caller with `none`. -/
theorem handleGetCompletionsFailure_policy_witness :
    (handleGetCompletionsFailure false (.plain "boom")).2 = none ∧
    (handleGetCompletionsFailure false (.plain "boom")).1 =
      StatusEffect.errorMessage "boom" := by
  have h := handleGetCompletionsFailure_policy false (.plain "boom")
  exact ⟨h.1, h.2.2 rfl⟩

/-! ## Foreground bridge client (`LanguageServerClient`)

```ts
private requestId = 0;
private promiseMap = new Map<number, (res: GetCompletionsResponse | undefined) => void>();

createPort(): chrome.runtime.Port {
  const port = chrome.runtime.connect(this.extensionId, { name: this.sessionId });
  port.onDisconnect.addListener(() => { this.port = this.createPort(); });
  port.onMessage.addListener(async (message) => {
    if (message.kind === 'getCompletions') {
      let res = undefined;
      if (message.response !== undefined) { res = GetCompletionsResponse.fromJsonString(message.response); }
      this.promiseMap.get(message.requestId)?.(res);
      this.promiseMap.delete(message.requestId);
    }
  });
  return port;
}
```
The state tracks the request ids currently holding a resolver in
`promiseMap`, the log of resolver invocations (which id was resolved,
with which value), and how many times the port has been (re)created.
`Map` keys are unique, so `promiseMap` is kept duplicate-free. -/

structure BridgeClientState where
  promiseMap : List Nat
  resolvedLog : List (Nat × Option String)
  portGen : Nat
  deriving DecidableEq, Repr

/-- The `onDisconnect` listener: re-create the port with the same session
identity.  No other field is touched — in particular `promiseMap` is not
cleared. -/
def disconnectStep (s : BridgeClientState) : BridgeClientState :=
  { s with portGen := s.portGen + 1 }

/-- The `onMessage` listener of the current port, on a `getCompletions`
frame: invoke the stored resolver for the frame's request id if one
exists (`promiseMap.get(requestId)?.(res)`), then delete the entry
(`promiseMap.delete(requestId)`). -/
def onResponseFrame (s : BridgeClientState) (requestId : Nat)
    (response : Option String) : BridgeClientState :=
  { promiseMap := s.promiseMap.erase requestId,
    resolvedLog :=
      if requestId ∈ s.promiseMap then (requestId, response) :: s.resolvedLog
      else s.resolvedLog,
    portGen := s.portGen }

/-- C3 counterexample: with request 1 pending, a channel disconnect does
NOT remove its entry from the mapping — the entry survives teardown —
and a frame bearing request id 1 arriving on the re-opened channel does
invoke its resolver. -/
theorem pending_entry_survives_disconnect :
    (disconnectStep { promiseMap := [1], resolvedLog := [], portGen := 0 }) =
      { promiseMap := [1], resolvedLog := [], portGen := 1 } ∧
    (onResponseFrame
        (disconnectStep { promiseMap := [1], resolvedLog := [], portGen := 0 })
        1 none).resolvedLog = [(1, none)] := by
  decide

/-- C3 amended: on channel disconnect the client re-opens the channel and
retains every pending entry unchanged — nothing is removed at teardown —
and a pending request's resolver is invoked exactly when a frame bearing
its request id arrives on the current (possibly re-opened) channel, at
which point its entry is removed; a pending request for whose id no
frame ever arrives is never resolved. -/
theorem disconnect_retains_pending (s : BridgeClientState)
    (rid : Nat) (response : Option String) (hd : s.promiseMap.Nodup) :
    (disconnectStep s).promiseMap = s.promiseMap ∧
    (disconnectStep s).resolvedLog = s.resolvedLog ∧
    (disconnectStep s).portGen = s.portGen + 1 ∧
    (rid ∈ s.promiseMap →
      (onResponseFrame (disconnectStep s) rid response).resolvedLog =
        (rid, response) :: s.resolvedLog ∧
      rid ∉ (onResponseFrame (disconnectStep s) rid response).promiseMap) := by
  refine ⟨rfl, rfl, rfl, fun hmem => ⟨?_, ?_⟩⟩
  · simp [onResponseFrame, disconnectStep, hmem]
  · simp only [onResponseFrame, disconnectStep]
    exact hd.not_mem_erase

/-- C3 amended witness: request 1 pending, disconnect, then a frame for
id 1 on the re-opened channel resolves it and removes the entry. -/
theorem disconnect_retains_pending_witness :
    (disconnectStep { promiseMap := [1], resolvedLog := [], portGen := 5 }).promiseMap = [1] ∧
    (onResponseFrame
        (disconnectStep { promiseMap := [1], resolvedLog := [], portGen := 5 })
        1 (some "resp")).resolvedLog = [(1, some "resp")] ∧
    1 ∉ (onResponseFrame
        (disconnectStep { promiseMap := [1], resolvedLog := [], portGen := 5 })
        1 (some "resp")).promiseMap := by
  have h := disconnect_retains_pending
    { promiseMap := [1], resolvedLog := [], portGen := 5 }
    1 (some "resp") (by decide)
  exact ⟨h.1, (h.2.2.2 (by decide)).1, (h.2.2.2 (by decide)).2⟩

/-! ## Request-id allocation (`LanguageServerClient.getMetadata`)

```ts
private requestId = 0;
getMetadata(ideInfo: IdeInfo, apiKey: string): Metadata {
  return new Metadata({ ..., requestId: BigInt(++this.requestId), ... });
}
```
`++this.requestId` increments the session-local counter and the
incremented value is the allocated request id. -/

structure CounterState where
  requestId : Nat
  deriving DecidableEq, Repr

/-- One `getMetadata` call: returns the new counter state and the
allocated request id (`BigInt(++this.requestId)`). -/
def getMetadataStep (s : CounterState) : CounterState × Nat :=
  ({ requestId := s.requestId + 1 }, s.requestId + 1)

/-- The counter after `n` calls, starting from the field initializer
`requestId = 0`. -/
def counterAfter : Nat → CounterState
  | 0 => { requestId := 0 }
  | n + 1 => (getMetadataStep (counterAfter n)).1

/-- The request id allocated by the `(n+1)`-th call of the session. -/
def allocatedId (n : Nat) : Nat := (getMetadataStep (counterAfter n)).2

theorem counterAfter_requestId (n : Nat) :
    (counterAfter n).requestId = n := by
  induction n with
  | zero => rfl
  | succ n ih => simpa [counterAfter, getMetadataStep] using ih

theorem allocatedId_eq (n : Nat) : allocatedId n = n + 1 := by
  simp [allocatedId, getMetadataStep, counterAfter_requestId]

/-- C6: each `getMetadata` call strictly increases the session-local
counter, earlier calls allocate strictly smaller request ids than later
ones, and distinct calls never allocate the same id — so an id is never
reused while a pending handle keyed by it is outstanding. -/
theorem requestId_strictly_monotonic_unique (s : CounterState) (m n : Nat)
    (hmn : m < n) :
    s.requestId < (getMetadataStep s).1.requestId ∧
    allocatedId m < allocatedId n ∧
    allocatedId m ≠ allocatedId n := by
  rw [allocatedId_eq, allocatedId_eq]
  exact ⟨Nat.lt_succ_self _, by omega, by omega⟩

/-- C6 witness: call 0 and call 4 allocate ids 1 and 5. -/
theorem requestId_strictly_monotonic_unique_witness :
    { requestId := 7 : CounterState }.requestId <
      (getMetadataStep { requestId := 7 }).1.requestId ∧
    allocatedId 0 < allocatedId 4 ∧
    allocatedId 0 ≠ allocatedId 4 :=
  requestId_strictly_monotonic_unique { requestId := 7 } 0 4 (by decide)

/-! ## Background message listener (service worker `onConnectExternal`)

```ts
port.onMessage.addListener(async (message: LanguageServerWorkerRequest, port) => {
  const client = clientMap.get(port.name);
  if (message.kind === 'getCompletions') {
    const response = await client?.getCompletions(GetCompletionsRequest.fromJsonString(message.request));
    const reply: GetCompletionsResponseMessage = {
      kind: 'getCompletions', requestId: message.requestId, response: response?.toJsonString(),
    };
    port.postMessage(reply);
  } else if (message.kind == 'acceptCompletion') {
    await client?.acceptedLastCompletion(...);
  } else { console.log('Unrecognized message:', message); }
});
```
The upstream outcome (`response`) is `some r` when the endpoint's
`getCompletions` returned a response, and `none` when the call failed,
was cancelled, or no endpoint exists for the port's name. -/

structure GetCompletionsResponse where
  json : String
  deriving DecidableEq, Repr

def GetCompletionsResponse.toJsonString (r : GetCompletionsResponse) : String :=
  r.json

inductive WorkerRequestMessage where
  | getCompletionsMsg (requestId : Nat) (request : String)
  | acceptCompletionMsg (request : String)
  | unrecognized
  deriving DecidableEq, Repr

structure ResponseFrame where
  requestId : Nat
  response : Option String
  deriving DecidableEq, Repr

/-- The background port's `onMessage` listener: the reply frame posted to
the port (`none` when the branch posts nothing). -/
def onWorkerPortMessage (upstream : Option GetCompletionsResponse) :
    WorkerRequestMessage → Option ResponseFrame
  | .getCompletionsMsg requestId _ =>
      some { requestId := requestId,
             response := upstream.map GetCompletionsResponse.toJsonString }
  | .acceptCompletionMsg _ => none
  | .unrecognized => none

/-- C5: every inbound `getCompletions` frame with request id `r` produces
exactly one reply frame carrying the same request id `r`, whose response
field holds the serialized upstream result when the upstream call
returned one, and is absent when the upstream call failed or was
cancelled (upstream outcome `none`). -/
theorem getCompletions_reply_echoes_requestId
    (upstream : Option GetCompletionsResponse) (r : Nat) (req : String) :
    onWorkerPortMessage upstream (.getCompletionsMsg r req) =
      some { requestId := r,
             response := upstream.map GetCompletionsResponse.toJsonString } ∧
    onWorkerPortMessage none (.getCompletionsMsg r req) =
      some { requestId := r, response := none } :=
  ⟨rfl, rfl⟩

/-! ## Auth state consumption (service worker `onMessageExternal`)

```ts
const authStates: string[] = [];
...
const stateIndex = authStates.indexOf(typedMessage.state);
if (stateIndex === -1) {
  console.log('Unexpected state:', typedMessage.state);
  return;
}
authStates.splice(stateIndex, 1);
await login(typedMessage.token);
```
`indexOf` finds the first occurrence (or -1, modelled as `none`), and
`splice(i, 1)` removes the element at position `i`. -/

def stateIndexOf : List String → String → Option Nat
  | [], _ => none
  | x :: xs, s => if x = s then some 0 else (stateIndexOf xs s).map (· + 1)

def spliceOne : List String → Nat → List String
  | [], _ => []
  | _ :: xs, 0 => xs
  | x :: xs, n + 1 => x :: spliceOne xs n

/-- The tail of the `onMessageExternal` listener on a `{token, state}`
message: returns the new outstanding-state list and whether the
token-for-credential exchange (`login(token)`) was triggered. -/
def handleAuthConfirmation (authStates : List String) (state : String) :
    List String × Bool :=
  match stateIndexOf authStates state with
  | none => (authStates, false)
  | some i => (spliceOne authStates i, true)

theorem stateIndexOf_eq_none {l : List String} {s : String} :
    stateIndexOf l s = none ↔ s ∉ l := by
  induction l with
  | nil => simp [stateIndexOf]
  | cons x xs ih =>
    simp only [stateIndexOf, List.mem_cons]
    by_cases hx : x = s
    · simp [hx]
    · have hsx : ¬s = x := fun h => hx h.symm
      simp [hx, Option.map_eq_none', ih, hsx]

theorem count_spliceOne {l : List String} {s : String} {i : Nat}
    (h : stateIndexOf l s = some i) :
    (spliceOne l i).count s + 1 = l.count s := by
  induction l generalizing i with
  | nil => simp [stateIndexOf] at h
  | cons x xs ih =>
    simp only [stateIndexOf] at h
    by_cases hx : x = s
    · simp only [if_pos hx, Option.some.injEq] at h
      subst h
      simp [spliceOne, hx, List.count_cons]
    · simp only [if_neg hx, Option.map_eq_some'] at h
      obtain ⟨j, hj, hi⟩ := h
      subst hi
      simp only [spliceOne, List.count_cons]
      have hxs : (x == s) = false := by simpa using hx
      simp only [hxs, Bool.false_eq_true, if_false, Nat.add_zero]
      exact ih hj

/-- C7: a registered state present exactly once in the outstanding list
is consumed at most once — the first confirmation bearing it removes it
and triggers the exchange, a replay of the same state on the resulting
list triggers nothing and changes nothing, and a confirmation bearing a
state that was never registered triggers nothing and changes nothing. -/
theorem authState_consumed_at_most_once (l : List String) (s u : String)
    (hone : l.count s = 1) (hu : u ∉ l) :
    (handleAuthConfirmation l s).2 = true ∧
    s ∉ (handleAuthConfirmation l s).1 ∧
    handleAuthConfirmation (handleAuthConfirmation l s).1 s =
      ((handleAuthConfirmation l s).1, false) ∧
    handleAuthConfirmation l u = (l, false) := by
  have hmem : s ∈ l := by
    rw [← List.count_pos_iff]
    omega
  have hidx : stateIndexOf l s ≠ none := fun h =>
    (stateIndexOf_eq_none.mp h) hmem
  obtain ⟨i, hi⟩ := Option.ne_none_iff_exists.mp hidx
  have hcount := count_spliceOne hi.symm
  have hnot : s ∉ spliceOne l i := by
    rw [← List.count_eq_zero]
    omega
  refine ⟨?_, ?_, ?_, ?_⟩
  · simp [handleAuthConfirmation, ← hi]
  · simp only [handleAuthConfirmation, ← hi]
    exact hnot
  · simp only [handleAuthConfirmation, ← hi]
    rw [stateIndexOf_eq_none.mpr hnot]
  · simp [handleAuthConfirmation, stateIndexOf_eq_none.mpr hu]

/-- C7 witness: outstanding list ["st"], confirming "st" consumes it,
replaying "st" is ignored, and an unknown state "zz" is ignored. -/
theorem authState_consumed_at_most_once_witness :
    (handleAuthConfirmation ["st"] "st").2 = true ∧
    "st" ∉ (handleAuthConfirmation ["st"] "st").1 ∧
    handleAuthConfirmation (handleAuthConfirmation ["st"] "st").1 "st" =
      ((handleAuthConfirmation ["st"] "st").1, false) ∧
    handleAuthConfirmation ["st"] "zz" = (["st"], false) :=
  authState_consumed_at_most_once ["st"] "st" "zz" (by decide) (by decide)

/-! ## Session registry (service worker `onConnectExternal`)

```ts
const clientMap = new Map<string, LanguageServerServiceWorkerClient>();
chrome.runtime.onConnectExternal.addListener((port) => {
  clientMap.set(port.name, new LanguageServerServiceWorkerClient(getLanguageServerUrl(), port.name));
  port.onDisconnect.addListener((port) => { clientMap.delete(port.name); });
  ...
});
```
The registry's keys are tracked as a list; `Map.set` replaces any
existing binding for the key, `Map.delete` removes it.  The environment
fact of which channels are currently open is tracked alongside; session
identities are freshly generated UUIDs, so a connect event's name is
never that of a channel already open (the trace-validity condition). -/

inductive PortEvent where
  | connectEvt (name : String)
  | disconnectEvt (name : String)
  deriving DecidableEq, Repr

structure RegistryState where
  clientMap : List String
  openChannels : List String
  deriving DecidableEq, Repr

def initRegistryState : RegistryState :=
  { clientMap := [], openChannels := [] }

def registryStep (s : RegistryState) : PortEvent → RegistryState
  | .connectEvt n =>
      { clientMap := n :: s.clientMap.erase n,
        openChannels := n :: s.openChannels }
  | .disconnectEvt n =>
      { clientMap := s.clientMap.erase n,
        openChannels := s.openChannels.erase n }

def runRegistry : RegistryState → List PortEvent → RegistryState
  | s, [] => s
  | s, e :: es => runRegistry (registryStep s e) es

/-- Trace validity: a channel connects only under a name not currently
open (fresh session identity), and only an open channel disconnects. -/
def validTrace : RegistryState → List PortEvent → Bool
  | _, [] => true
  | s, .connectEvt n :: es =>
      !(decide (n ∈ s.openChannels)) &&
        validTrace (registryStep s (.connectEvt n)) es
  | s, .disconnectEvt n :: es =>
      decide (n ∈ s.openChannels) &&
        validTrace (registryStep s (.disconnectEvt n)) es

theorem runRegistry_maps_eq (es : List PortEvent) :
    ∀ s : RegistryState, s.clientMap = s.openChannels →
      validTrace s es = true →
      (runRegistry s es).clientMap = (runRegistry s es).openChannels := by
  induction es with
  | nil => intro s h _; exact h
  | cons e es ih =>
    intro s h hv
    cases e with
    | connectEvt n =>
      simp only [validTrace, Bool.and_eq_true, Bool.not_eq_true',
        decide_eq_false_iff_not] at hv
      refine ih _ ?_ hv.2
      simp only [registryStep]
      rw [h, List.erase_of_not_mem hv.1]
    | disconnectEvt n =>
      simp only [validTrace, Bool.and_eq_true] at hv
      refine ih _ ?_ hv.2
      simp only [registryStep]
      rw [h]

/-- C8: over any valid event trace from the initial (empty) registry, a
session name holds a Connection Endpoint in the registry if and only if
its channel is currently open — connects install the endpoint under the
channel's name and disconnects remove exactly that entry. -/
theorem registry_endpoint_iff_channel_open (es : List PortEvent)
    (hv : validTrace initRegistryState es = true) (n : String) :
    n ∈ (runRegistry initRegistryState es).clientMap ↔
      n ∈ (runRegistry initRegistryState es).openChannels := by
  rw [runRegistry_maps_eq es initRegistryState rfl hv]

/-- C8 witness: after connect a, connect b, disconnect a — a valid
trace — session "b" has an endpoint iff (and it does) its channel is
open. -/
theorem registry_endpoint_iff_channel_open_witness :
    validTrace initRegistryState
      [.connectEvt "a", .connectEvt "b", .disconnectEvt "a"] = true ∧
    ("b" ∈ (runRegistry initRegistryState
      [.connectEvt "a", .connectEvt "b", .disconnectEvt "a"]).clientMap ↔
     "b" ∈ (runRegistry initRegistryState
      [.connectEvt "a", .connectEvt "b", .disconnectEvt "a"]).openChannels) :=
  ⟨by decide,
   registry_endpoint_iff_channel_open
     [.connectEvt "a", .connectEvt "b", .disconnectEvt "a"] (by decide) "b"⟩

end Codeium
